import Mathlib

/-!
Verification development for the payment issue-processing service.

The definitions below are a shallow embedding of the TypeScript sources:
the deterministic rules engine (`decisionEngine`), the AI response
validator (`parseAIResponse`), the decision router
(`decisionEngineRouter`), the redis distributed lock, the worker
orchestration (`processIssue`) over an explicit system state, the human
review handler (`reviewIssue`), and the archival maintenance job
(`archiveResolvedIssues`).  Machine numbers are modelled as `Int`/`ℚ`,
timestamps as `Nat`, TypeScript string unions as `String`, nullable
fields as `Option`, and thrown errors as explicit outcome values.
-/

/-- Substring test on character lists: does `pat` occur as a prefix of `l`. -/
def listStartsWith : List Char → List Char → Bool
  | [], _ => true
  | _ :: _, [] => false
  | p :: ps, c :: cs => p == c && listStartsWith ps cs

/-- Substring containment on character lists (naive scan over suffixes). -/
def listContainsSub (pat : List Char) : List Char → Bool
  | [] => listStartsWith pat []
  | c :: cs => listStartsWith pat (c :: cs) || listContainsSub pat cs

/-- Model of JavaScript `String.prototype.includes`. -/
def strIncludes (s pat : String) : Bool :=
  listContainsSub pat.data s.data

/-! ## Data model (db/schema) -/

/-- Details payload of a `decline` issue. -/
structure DeclineDetails where
  error_code : String
  auto_retry_count : Int
  deriving Repr, DecidableEq

/-- Details payload of a `missed_installment` issue. -/
structure MissedInstallmentDetails where
  installment_number : Int
  total_installments : Int
  amount_due : ℚ
  days_overdue : Int
  deriving Repr, DecidableEq

/-- Details payload of a `dispute` issue. -/
structure DisputeDetails where
  reason : String
  days_since_purchase : Int
  deriving Repr, DecidableEq

/-- Details payload of a `refund_request` issue. -/
structure RefundRequestDetails where
  reason : String
  days_since_purchase : Int
  deriving Repr, DecidableEq

/-- The type-specific variant payload of an issue (jsonb `details`). -/
inductive IssueDetails where
  | decline (d : DeclineDetails)
  | missedInstallment (d : MissedInstallmentDetails)
  | dispute (d : DisputeDetails)
  | refundRequest (d : RefundRequestDetails)
  deriving Repr, DecidableEq

/-- Installment plan attached to a transaction (jsonb). -/
structure InstallmentPlan where
  total : Int
  completed : Int
  amountPer : ℚ
  deriving Repr, DecidableEq

/-- Shipping info attached to a transaction (jsonb); `status` is optional. -/
structure ShippingInfo where
  status : Option String
  deriving Repr, DecidableEq

/-- The PII-free customer projection used by the decision engines. -/
structure Customer where
  id : String
  riskScore : String
  successfulPayments : Int
  lifetimeTransactions : Int
  deriving Repr, DecidableEq

/-- The PII-free transaction projection used by the decision engines. -/
structure Transaction where
  id : String
  isRecurring : Bool
  installmentPlan : Option InstallmentPlan
  shippingInfo : Option ShippingInfo
  deriving Repr, DecidableEq

/-- An issue row of the live store (fields relevant to processing). -/
structure Issue where
  id : String
  type : String
  status : String
  priority : String
  customerId : String
  transactionId : String
  details : IssueDetails
  retryCount : Nat
  lastRetryAt : Option Nat
  automatedDecision : Option String
  automatedDecisionConfidence : Option ℚ
  automatedDecisionReason : Option String
  humanDecision : Option String
  humanDecisionReason : Option String
  humanReviewerEmail : Option String
  humanReviewedAt : Option Nat
  finalResolution : Option String
  resolutionReason : Option String
  createdAt : Nat
  updatedAt : Nat
  resolvedAt : Option Nat
  deriving Repr, DecidableEq

/-- One entry of the append-only status history log (metadata omitted). -/
structure StatusHistoryEntry where
  issueId : String
  fromStatus : Option String
  toStatus : String
  changedBy : String
  reason : String
  deriving Repr, DecidableEq

/-! ## Rules engine (services/decisionEngine.ts) -/

/-- Decision result produced by the rules engine. -/
structure Decision where
  decision : String
  confidence : ℚ
  reason : String
  deriving Repr, DecidableEq

namespace decisionEngine

/-- Insufficient-funds decline evaluation. -/
def evaluateDeclineInsufficientFunds (customer : Customer) : Decision :=
  if customer.riskScore = "low" ∧ customer.successfulPayments > 5 then
    { decision := "retry_payment", confidence := (0.85 : ℚ),
      reason := "Low-risk customer with strong payment history - scheduling retry" }
  else if customer.riskScore = "medium" ∧ customer.successfulPayments > 10 then
    { decision := "retry_payment", confidence := (0.7 : ℚ),
      reason := "Medium-risk customer with established payment history - scheduling retry" }
  else
    { decision := "escalate", confidence := (0.5 : ℚ),
      reason := "Customer risk profile requires manual review before retry" }

/-- Expired-card decline evaluation. -/
def evaluateDeclineExpiredCard (customer : Customer) (transaction : Transaction) : Decision :=
  if transaction.isRecurring ∧ customer.lifetimeTransactions > 10 then
    { decision := "retry_payment", confidence := (0.9 : ℚ),
      reason := "Loyal subscription customer - notify to update payment method and retry" }
  else
    { decision := "escalate", confidence := (0.6 : ℚ),
      reason := "Non-recurring transaction with expired card needs outreach" }

/-- Generic card-declined evaluation. -/
def evaluateDeclineGeneric (customer : Customer) (details : DeclineDetails) : Decision :=
  if details.auto_retry_count ≥ 2 then
    { decision := "escalate", confidence := (0.7 : ℚ),
      reason := "Multiple retry attempts failed - requires manual investigation" }
  else if customer.riskScore = "low" then
    { decision := "retry_payment", confidence := (0.75 : ℚ),
      reason := "Low-risk customer - attempting one more retry" }
  else
    { decision := "escalate", confidence := (0.55 : ℚ),
      reason := "Generic decline for non-low-risk customer - needs review" }

/-- Decline issue evaluation; a details payload of another variant reads an
absent `error_code` and lands in the default branch, as in the source. -/
def evaluateDecline (issue : Issue) (customer : Customer) (transaction : Transaction) : Decision :=
  match issue.details with
  | .decline d =>
    if d.error_code = "insufficient_funds" then evaluateDeclineInsufficientFunds customer
    else if d.error_code = "card_expired" then evaluateDeclineExpiredCard customer transaction
    else if d.error_code = "card_declined" then evaluateDeclineGeneric customer d
    else
      { decision := "escalate", confidence := (0.5 : ℚ),
        reason := "Unknown error code - requires manual review" }
  | _ =>
    { decision := "escalate", confidence := (0.5 : ℚ),
      reason := "Unknown error code - requires manual review" }

/-- Missed-installment evaluation; on a mismatched details payload every
numeric comparison on the absent `days_overdue` is false, so control falls
through to the last branch, as in the source. -/
def evaluateMissedInstallment (issue : Issue) (customer : Customer) : Decision :=
  match issue.details with
  | .missedInstallment d =>
    if d.days_overdue ≤ 7 ∧ customer.riskScore ≠ "high" then
      { decision := "send_reminder", confidence := (0.75 : ℚ),
        reason := "Short overdue period for good customer - sending reminder and retrying" }
    else if d.days_overdue > 30 then
      { decision := "escalate", confidence := (0.4 : ℚ),
        reason := "Extended overdue period (30+ days) - requires collections review" }
    else if customer.riskScore = "low" ∧ d.days_overdue ≤ 14 then
      { decision := "send_reminder", confidence := (0.65 : ℚ),
        reason := "Low-risk customer with moderate overdue - scheduling retry with notification" }
    else
      { decision := "escalate", confidence := (0.55 : ℚ),
        reason := "Moderately overdue - needs payment arrangement review" }
  | _ =>
    { decision := "escalate", confidence := (0.55 : ℚ),
      reason := "Moderately overdue - needs payment arrangement review" }

/-- Reading `transaction.installmentPlan && plan.completed > 0`. -/
def planHasPayments : Option InstallmentPlan → Bool
  | none => false
  | some p => decide (p.completed > 0)

/-- Reading `transaction.installmentPlan && plan.completed === 0`. -/
def planHasNoPayments : Option InstallmentPlan → Bool
  | none => false
  | some p => decide (p.completed = 0)

/-- Status of the optional shipping info, as read by `shipping?.status`. -/
def shippingStatus : Option ShippingInfo → Option String
  | none => none
  | some si => si.status

/-- Item-not-received dispute evaluation. -/
def evaluateDisputeItemNotReceived (details : DisputeDetails)
    (shipping : Option ShippingInfo) : Decision :=
  if shippingStatus shipping = some "delivered" then
    { decision := "contest_dispute", confidence := (0.95 : ℚ),
      reason := "Carrier tracking confirms delivery - dispute denied" }
  else if details.days_since_purchase < 14 ∧ shippingStatus shipping = some "in_transit" then
    { decision := "escalate", confidence := (0.4 : ℚ),
      reason := "Package still in transit - verify with carrier before decision" }
  else if shipping = none ∨ shippingStatus shipping = some "lost" then
    { decision := "accept_dispute", confidence := (0.85 : ℚ),
      reason := "No delivery confirmation available - approving refund" }
  else if shippingStatus shipping = some "pending" ∧ details.days_since_purchase < 7 then
    { decision := "escalate", confidence := (0.6 : ℚ),
      reason := "Order recently placed and shipment pending - needs fulfillment check" }
  else
    { decision := "escalate", confidence := (0.5 : ℚ),
      reason := "Requires manual investigation" }

/-- Unauthorized-transaction dispute evaluation. -/
def evaluateDisputeUnauthorized : Decision :=
  { decision := "escalate", confidence := (0.3 : ℚ),
    reason := "Unauthorized transaction claim requires fraud investigation" }

/-- Product-issue dispute evaluation. -/
def evaluateDisputeProductIssue (details : DisputeDetails) : Decision :=
  if details.days_since_purchase ≤ 14 then
    { decision := "accept_dispute", confidence := (0.75 : ℚ),
      reason := "Recent product issue report - approving refund within return window" }
  else
    { decision := "escalate", confidence := (0.55 : ℚ),
      reason := "Product issue reported after return window - needs verification" }

/-- Dispute issue evaluation; a mismatched details payload reads an absent
`reason` and lands in the default branch. -/
def evaluateDispute (issue : Issue) (transaction : Transaction) : Decision :=
  match issue.details with
  | .dispute d =>
    if d.reason = "item_not_received" then
      evaluateDisputeItemNotReceived d transaction.shippingInfo
    else if d.reason = "unauthorized" then evaluateDisputeUnauthorized
    else if d.reason = "product_issue" then evaluateDisputeProductIssue d
    else
      { decision := "escalate", confidence := (0.5 : ℚ),
        reason := "Unknown dispute reason - requires manual review" }
  | _ =>
    { decision := "escalate", confidence := (0.5 : ℚ),
      reason := "Unknown dispute reason - requires manual review" }

/-- Refund-request evaluation; on a mismatched details payload the numeric
day-window comparisons are all false and only the installment-plan checks on
the transaction apply, as in the source. -/
def evaluateRefundRequest (issue : Issue) (transaction : Transaction) : Decision :=
  match issue.details with
  | .refundRequest d =>
    if d.days_since_purchase ≤ 7 ∧ transaction.installmentPlan = none then
      { decision := "approve_refund", confidence := (0.95 : ℚ),
        reason := "Within 7-day return window - standard refund policy applies" }
    else if d.days_since_purchase ≤ 30 ∧ transaction.installmentPlan = none then
      if d.reason = "defective" ∨ d.reason = "wrong_item" then
        { decision := "approve_refund", confidence := (0.85 : ℚ),
          reason := (if d.reason = "defective" then "Defective" else "Wrong")
            ++ " item - approving refund within 30-day window" }
      else
        { decision := "approve_refund", confidence := (0.75 : ℚ),
          reason := "Within 30-day return window - approving refund" }
    else if planHasPayments transaction.installmentPlan then
      { decision := "escalate", confidence := (0.55 : ℚ),
        reason := "Active installment plan with payments made - requires finance review" }
    else if planHasNoPayments transaction.installmentPlan then
      { decision := "approve_refund", confidence := (0.85 : ℚ),
        reason := "Installment plan with no payments - cancelling plan" }
    else if d.days_since_purchase > 30 then
      if d.reason = "defective" then
        { decision := "escalate", confidence := (0.6 : ℚ),
          reason := "Defective item reported after return window - needs quality review" }
      else
        { decision := "deny_refund", confidence := (0.8 : ℚ),
          reason := "Outside 30-day return policy window" }
    else
      { decision := "escalate", confidence := (0.6 : ℚ),
        reason := "Non-standard refund request - requires review" }
  | _ =>
    if planHasPayments transaction.installmentPlan then
      { decision := "escalate", confidence := (0.55 : ℚ),
        reason := "Active installment plan with payments made - requires finance review" }
    else if planHasNoPayments transaction.installmentPlan then
      { decision := "approve_refund", confidence := (0.85 : ℚ),
        reason := "Installment plan with no payments - cancelling plan" }
    else
      { decision := "escalate", confidence := (0.6 : ℚ),
        reason := "Non-standard refund request - requires review" }

/-- Main rules-engine entry point, routing on the issue type. -/
def evaluate (issue : Issue) (customer : Customer) (transaction : Transaction) : Decision :=
  if issue.type = "decline" then evaluateDecline issue customer transaction
  else if issue.type = "missed_installment" then evaluateMissedInstallment issue customer
  else if issue.type = "dispute" then evaluateDispute issue transaction
  else if issue.type = "refund_request" then evaluateRefundRequest issue transaction
  else
    { decision := "escalate", confidence := (0.5 : ℚ),
      reason := "Unknown issue type: " ++ issue.type }

/-- Map a decision code to the final resolution string; every value outside
the enumerated cases takes the default branch. -/
def decisionToResolution (decision : String) : String :=
  if decision = "retry_payment" then "payment_retry_scheduled"
  else if decision = "block_card" then "card_blocked"
  else if decision = "approve_refund" then "refund_approved"
  else if decision = "deny_refund" then "refund_denied"
  else if decision = "accept_dispute" then "dispute_accepted"
  else if decision = "contest_dispute" then "dispute_contested"
  else if decision = "send_reminder" then "reminder_sent"
  else if decision = "charge_late_fee" then "late_fee_charged"
  else if decision = "escalate" then "escalated"
  else "resolved"

/-- The decision codes enumerated by the `decisionToResolution` switch, in
source order. -/
def decisionToResolutionCases : List String :=
  ["retry_payment", "block_card", "approve_refund", "deny_refund",
   "accept_dispute", "contest_dispute", "send_reminder", "charge_late_fee", "escalate"]

end decisionEngine

/-! ## AI decision engine output validation (services/aiDecisionEngine.ts) -/

/-- Validated AI decision (output contract of the AI engine). -/
structure AIDecision where
  decision : String
  action : String
  confidence : ℚ
  reasoning : String
  policyApplied : String
  deriving Repr, DecidableEq

/-- The JSON object extracted from the agent response, before validation;
absent fields are `none`. -/
structure ParsedAIJson where
  decision : Option String
  action : Option String
  confidence : Option ℚ
  reasoning : Option String
  policyApplied : Option String
  deriving Repr, DecidableEq

/-- Decision routing classes accepted by the validator. -/
def validDecisions : List String := ["auto_resolve", "human_review", "escalate"]

/-- Action values accepted by the validator. -/
def validActions : List String := ["approve_retry", "approve_refund", "reject", "escalate"]

/-- JavaScript `x || d` on an optional string: absent or empty means default. -/
def jsStringOrDefault (x : Option String) (d : String) : String :=
  match x with
  | none => d
  | some s => if s = "" then d else s

/-- Validation stage of `parseAIResponse`: reject on missing `decision`,
`action`, or `confidence`, on out-of-enum values, and on out-of-range
confidence; `reasoning` and `policyApplied` are defaulted when absent. -/
def parseAIResponse (p : ParsedAIJson) : Except String AIDecision :=
  match p.decision, p.action, p.confidence with
  | some d, some a, some c =>
    if d = "" ∨ a = "" then .error "Missing required fields in AI response"
    else if ¬ validDecisions.contains d then .error ("Invalid decision value: " ++ d)
    else if ¬ validActions.contains a then .error ("Invalid action value: " ++ a)
    else if c < 0 ∨ c > 100 then .error "Confidence must be 0-100"
    else .ok { decision := d, action := a, confidence := c,
               reasoning := jsStringOrDefault p.reasoning "No reasoning provided",
               policyApplied := jsStringOrDefault p.policyApplied "Unknown" }
  | _, _, _ => .error "Missing required fields in AI response"

/-! ## Decision router (services/decisionEngineRouter.ts) -/

/-- Unified decision abstraction over both engines. -/
structure UnifiedDecision where
  decision : String
  confidence : ℚ
  reason : String
  source : String
  aiRouting : Option String
  policyApplied : Option String
  deriving Repr, DecidableEq

namespace decisionEngineRouter

/-- Wrap a rules-engine decision into the unified shape. -/
def rulesDecisionToUnified (d : Decision) : UnifiedDecision :=
  { decision := d.decision, confidence := d.confidence, reason := d.reason,
    source := "rules", aiRouting := none, policyApplied := none }

/-- Wrap an AI decision into the unified shape, rescaling confidence. -/
def aiDecisionToUnified (ai : AIDecision) : UnifiedDecision :=
  { decision := ai.action, confidence := ai.confidence / 100, reason := ai.reasoning,
    source := "ai", aiRouting := some ai.decision, policyApplied := some ai.policyApplied }

/-- Router evaluation.  `mode` is the configured engine mode and `aiResult`
is the outcome of the AI engine invocation (its value on success, the
thrown error on any failure). -/
def evaluate (mode : String) (aiResult : Except String AIDecision)
    (issue : Issue) (customer : Customer) (transaction : Transaction) : UnifiedDecision :=
  if mode = "ai" then
    match aiResult with
    | .ok ai => aiDecisionToUnified ai
    | .error _ => rulesDecisionToUnified (decisionEngine.evaluate issue customer transaction)
  else
    rulesDecisionToUnified (decisionEngine.evaluate issue customer transaction)

/-- Auto-resolve classification; `threshold` is the configured global
rules-engine confidence threshold. -/
def shouldAutoResolve (threshold : ℚ) (d : UnifiedDecision) : Bool :=
  if d.source = "ai" then d.aiRouting = some "auto_resolve"
  else if d.decision = "escalate" then false
  else d.confidence ≥ threshold

/-- Final resolution string of a unified decision. -/
def getResolution (d : UnifiedDecision) : String :=
  decisionEngine.decisionToResolution d.decision

end decisionEngineRouter

/-! ## Distributed lock (redis keyspace, services/issueService.ts) -/

/-- Lock lease TTL in milliseconds (`LOCK_TTL_MS`). -/
def LOCK_TTL_MS : Nat := 30000

/-- Key prefix for processing locks (`LOCK_PREFIX`). -/
def lockKey (issueId : String) : String := "job:processing:" ++ issueId

/-- The redis lock keyspace: key, owner and absolute expiry time. -/
abbrev LockStore := List (String × String × Nat)

/-- Raw keyspace lookup (ignores expiry). -/
def lockFind : LockStore → String → Option (String × Nat)
  | [], _ => none
  | (k, o, e) :: rest, key => if k = key then some (o, e) else lockFind rest key

/-- Remove a key from the keyspace (redis `DEL`). -/
def lockErase : LockStore → String → LockStore
  | [], _ => []
  | (k, o, e) :: rest, key =>
    if k = key then lockErase rest key else (k, o, e) :: lockErase rest key

/-- Live value of a key at time `now`; an expired entry behaves as absent
(redis expiry), which is what `GET` and `SET NX` observe. -/
def lockLive (locks : LockStore) (now : Nat) (key : String) : Option String :=
  match lockFind locks key with
  | some (o, e) => if now < e then some o else none
  | none => none

/-- Redis `SET key value PX ttl NX`: set only if the key has no live value;
returns whether the set happened together with the new keyspace. -/
def lockSetNxPx (locks : LockStore) (now : Nat) (key owner : String) (ttl : Nat) :
    Bool × LockStore :=
  match lockLive locks now key with
  | some _ => (false, locks)
  | none => (true, (key, owner, now + ttl) :: lockErase locks key)

/-! ## System state and repositories -/

/-- A decision-analytics record (write-only sink). -/
inductive AnalyticsEntry where
  | aiDecisionRec (issueId aiDecision aiAction : String) (aiConfidence : ℚ)
      (aiReasoning : String) (aiPolicyApplied : Option String)
  | humanReviewRec (issueId humanDecision humanAction humanReason reviewedBy : String)
  deriving Repr, DecidableEq

/-- The state touched by the worker: the redis lock keyspace, the issue,
customer and transaction stores, the status-history log and the analytics
sink. -/
structure SysState where
  locks : LockStore
  issues : List Issue
  customers : List Customer
  transactions : List Transaction
  history : List StatusHistoryEntry
  analytics : List AnalyticsEntry
  deriving Repr, DecidableEq

/-- `issueRepository.findById`. -/
def findIssue (s : SysState) (id : String) : Option Issue :=
  s.issues.find? (fun i => i.id == id)

/-- `customerRepository.findByIdWithoutPii`. -/
def findCustomer (s : SysState) (id : String) : Option Customer :=
  s.customers.find? (fun c => c.id == id)

/-- `transactionRepository.findByIdWithoutPii`. -/
def findTransaction (s : SysState) (id : String) : Option Transaction :=
  s.transactions.find? (fun t => t.id == id)

/-- `acquireLock` of the issue service: `SET NX` with `PX LOCK_TTL_MS`. -/
def acquireLock (s : SysState) (now : Nat) (issueId workerId : String) : Bool × SysState :=
  match lockSetNxPx s.locks now (lockKey issueId) workerId LOCK_TTL_MS with
  | (ok, locks) => (ok, { s with locks := locks })

/-- `releaseLock` of the issue service: delete only when the stored owner is
the calling worker. -/
def releaseLock (s : SysState) (now : Nat) (issueId workerId : String) : SysState :=
  match lockLive s.locks now (lockKey issueId) with
  | some owner =>
    if owner = workerId then { s with locks := lockErase s.locks (lockKey issueId) } else s
  | none => s

/-- `issueRepository.update`: apply the update params to the matching row
and stamp `updatedAt`. -/
def repoUpdate (s : SysState) (id : String) (now : Nat) (f : Issue → Issue) : SysState :=
  { s with issues := s.issues.map (fun i => if i.id = id then { f i with updatedAt := now } else i) }

/-- `issueRepository.updateStatus`: status update that also stamps
`resolvedAt` for the terminal statuses. -/
def repoUpdateStatus (s : SysState) (id status : String) (now : Nat) : SysState :=
  if status = "resolved" ∨ status = "failed" then
    repoUpdate s id now (fun i => { i with status := status, resolvedAt := some now })
  else
    repoUpdate s id now (fun i => { i with status := status })

/-- `statusHistoryRepository.create`: append-only insert. -/
def appendHistory (s : SysState) (e : StatusHistoryEntry) : SysState :=
  { s with history := s.history ++ [e] }

/-- Append to the decision-analytics sink. -/
def appendAnalytics (s : SysState) (a : AnalyticsEntry) : SysState :=
  { s with analytics := s.analytics ++ [a] }

/-! ## Worker orchestration (processIssue, services/issueService.ts) -/

/-- Result shape returned by `processIssue`. -/
structure ProcessingResult where
  success : Bool
  issueId : String
  status : String
  decision : Option UnifiedDecision
  error : Option String
  deriving Repr, DecidableEq

/-- Outcome of one `processIssue` call: a returned result, or an error
propagated to the caller (`nonRetryable` records whether the propagated
error is a `NonRetryableError`). -/
inductive ProcOutcome where
  | result (r : ProcessingResult)
  | thrown (nonRetryable : Bool) (msg : String)
  deriving Repr, DecidableEq

/-- The `catch` branch for a `NonRetryableError`: the status update to
`failed` is skipped whenever the message contains the substring
"not found". -/
def handleNonRetryable (s : SysState) (issueId workerId : String) (now : Nat)
    (msg : String) : ProcOutcome × SysState :=
  let s' :=
    if strIncludes msg "not found" then s
    else
      appendHistory (repoUpdateStatus s issueId "failed" now)
        { issueId := issueId, fromStatus := some "processing", toStatus := "failed",
          changedBy := workerId, reason := "Non-retryable error: " ++ msg }
  (.result { success := false, issueId := issueId, status := "failed",
             decision := none, error := some msg }, s')

/-- The `catch` branch for any other (retryable) error: reset the issue to
`pending`, bump the retry counters, and re-throw for the queue. -/
def handleRetryable (s : SysState) (issueId : String) (now : Nat)
    (msg : String) : ProcOutcome × SysState :=
  let s' :=
    match findIssue s issueId with
    | some issue =>
      repoUpdate s issueId now (fun i =>
        { i with status := "pending", retryCount := issue.retryCount + 1,
                 lastRetryAt := some now })
    | none => s
  (.thrown false msg, s')

/-- The history entry recorded when processing starts. -/
def startedProcessingEntry (issueId workerId : String) : StatusHistoryEntry :=
  { issueId := issueId, fromStatus := some "pending", toStatus := "processing",
    changedBy := workerId, reason := "Started processing" }

/-- The pending→processing transition: status update plus history entry. -/
def stepToProcessing (s : SysState) (issueId workerId : String) (now : Nat) : SysState :=
  appendHistory (repoUpdateStatus s issueId "processing" now)
    (startedProcessingEntry issueId workerId)

/-- Tail of the worker body once the decision engine has produced a
decision: compute the final status and resolution, persist the decision,
record the transition, and emit analytics for AI decisions needing review. -/
def processDecision (s1 : SysState) (issueId workerId : String) (now : Nat)
    (decision : UnifiedDecision) (threshold : ℚ) : ProcOutcome × SysState :=
  let autoResolve := decisionEngineRouter.shouldAutoResolve threshold decision
  let finalStatus := if autoResolve then "resolved" else "awaiting_review"
  let s2 := repoUpdate s1 issueId now (fun i =>
    let base := { i with
      status := finalStatus,
      automatedDecision := some decision.decision,
      automatedDecisionConfidence := some decision.confidence,
      automatedDecisionReason := some decision.reason }
    if autoResolve then
      { base with
        finalResolution := some (decisionEngineRouter.getResolution decision),
        resolutionReason := some decision.reason,
        resolvedAt := some now }
    else base)
  let s3 := appendHistory s2
    { issueId := issueId, fromStatus := some "processing", toStatus := finalStatus,
      changedBy := workerId,
      reason := (if autoResolve then "Auto-resolved: " else "Escalated for review: ")
        ++ decision.reason }
  let s4 :=
    if !autoResolve && decision.source == "ai" then
      appendAnalytics s3 (.aiDecisionRec issueId
        (decision.aiRouting.getD "human_review") decision.decision
        (decision.confidence * 100) decision.reason
        (match decision.policyApplied with
         | some p => if p = "" then none else some p
         | none => none))
    else s3
  (.result { success := true, issueId := issueId, status := finalStatus,
             decision := some decision, error := none }, s4)

/-- The worker body once the issue is known to be pending and has been moved
to `processing`: fetch the projections, evaluate, and persist.  `fault`
injects a transient error between the projection fetches and the decision
evaluation, modelling any retryable storage/engine failure caught by the
generic `catch`. -/
def processAfterPending (s : SysState) (issueId workerId : String) (now : Nat)
    (mode : String) (aiResult : Except String AIDecision) (threshold : ℚ)
    (fault : Bool) (issue : Issue) : ProcOutcome × SysState :=
  match findCustomer (stepToProcessing s issueId workerId now) issue.customerId with
  | none => handleNonRetryable (stepToProcessing s issueId workerId now) issueId workerId now
      ("Customer not found: " ++ issue.customerId)
  | some customer =>
    match findTransaction (stepToProcessing s issueId workerId now) issue.transactionId with
    | none => handleNonRetryable (stepToProcessing s issueId workerId now) issueId workerId now
        ("Transaction not found: " ++ issue.transactionId)
    | some transaction =>
      if fault then
        handleRetryable (stepToProcessing s issueId workerId now) issueId now
          "transient storage error"
      else
        processDecision (stepToProcessing s issueId workerId now) issueId workerId now
          (decisionEngineRouter.evaluate mode aiResult issue customer transaction) threshold

/-- Body of the `try` block of `processIssue` (the lock is already held). -/
def processIssueBody (s : SysState) (issueId workerId : String) (now : Nat)
    (mode : String) (aiResult : Except String AIDecision) (threshold : ℚ)
    (fault : Bool) : ProcOutcome × SysState :=
  match findIssue s issueId with
  | none => handleNonRetryable s issueId workerId now ("Issue not found: " ++ issueId)
  | some issue =>
    if issue.status ≠ "pending" then
      (.result { success := true, issueId := issueId, status := issue.status,
                 decision := none, error := none }, s)
    else
      processAfterPending s issueId workerId now mode aiResult threshold fault issue

/-- `processIssue`: acquire the lock, run the body, and always release the
lock (the `finally`).  A failed acquisition returns before the `try`. -/
def processIssue (s : SysState) (issueId workerId : String) (now : Nat)
    (mode : String) (aiResult : Except String AIDecision) (threshold : ℚ)
    (fault : Bool) : ProcOutcome × SysState :=
  match acquireLock s now issueId workerId with
  | (false, s1) =>
    (.result { success := false, issueId := issueId, status := "failed",
               decision := none, error := some "Issue is already being processed" }, s1)
  | (true, s1) =>
    match processIssueBody s1 issueId workerId now mode aiResult threshold fault with
    | (out, s2) => (out, releaseLock s2 now issueId workerId)

/-! ## Queue worker (queue/workers/issueProcessor.worker.ts) -/

/-- Outcome of one queue job at the BullMQ layer. -/
inductive JobOutcome where
  | completed
  | retryAgain (msg : String)
  | unrecoverable (msg : String)
  deriving Repr, DecidableEq

/-- `processJob` of the issue-processing worker: a failed result is
re-thrown as a plain `Error` (so BullMQ retries it); only an error that is
itself a `NonRetryableError` instance becomes an `UnrecoverableError`. -/
def processJob (out : ProcOutcome) : JobOutcome :=
  match out with
  | .result r => if r.success then .completed else .retryAgain (r.error.getD "")
  | .thrown true msg => .unrecoverable msg
  | .thrown false msg => .retryAgain msg

/-! ## Human review (routes handler reviewIssue) -/

/-- Outcome of a `reviewIssue` request. -/
inductive ReviewOutcome where
  | ok
  | notFound
  | unprocessable
  deriving Repr, DecidableEq

/-- Final resolution string chosen from the reviewer decision. -/
def reviewFinalResolution (decision : String) : String :=
  if decision = "approve_retry" then "approved_for_retry"
  else if decision = "approve_refund" then "refunded"
  else if decision = "reject" then "rejected"
  else if decision = "escalate" then "escalated"
  else "resolved"

/-- `reviewIssue`: only an `awaiting_review` issue can be reviewed; the
review resolves the issue, records the transition, and records analytics
when an automated decision exists. -/
def reviewIssue (s : SysState) (id decision reason reviewerEmail : String)
    (now : Nat) : ReviewOutcome × SysState :=
  match findIssue s id with
  | none => (.notFound, s)
  | some issue =>
    if issue.status ≠ "awaiting_review" then (.unprocessable, s)
    else
      let s1 := repoUpdate s id now (fun i =>
        { i with status := "resolved", humanDecision := some decision,
                 humanDecisionReason := some reason,
                 humanReviewerEmail := some reviewerEmail,
                 humanReviewedAt := some now,
                 finalResolution := some (reviewFinalResolution decision),
                 resolutionReason := some reason, resolvedAt := some now })
      let s2 := appendHistory s1
        { issueId := id, fromStatus := some "awaiting_review", toStatus := "resolved",
          changedBy := reviewerEmail, reason := reason }
      let s3 :=
        match issue.automatedDecision with
        | some auto =>
          if auto = "" then s2
          else
            appendAnalytics s2 (.humanReviewRec id
              (if decision = auto then "approve"
               else if decision = "reject" ∨ decision = "escalate" then "reject"
               else "modify")
              decision reason reviewerEmail)
        | none => s2
      (.ok, s3)

/-! ## Archival maintenance job (services/archivalService.ts) -/

/-- An archive-store row: a structural copy of the issue plus `archivedAt`. -/
structure ArchiveRecord where
  issue : Issue
  archivedAt : Option Nat
  deriving Repr, DecidableEq

/-- Summary returned by `archiveResolvedIssues`. -/
structure ArchiveResult where
  archivedCount : Nat
  errors : List String
  deriving Repr, DecidableEq

/-- The archival `WHERE` clause: terminal status and `updatedAt` before the
cutoff. -/
def shouldArchive (cutoff : Nat) (i : Issue) : Bool :=
  decide ((i.status = "resolved" ∨ i.status = "failed") ∧ i.updatedAt < cutoff)

/-- Build the archive row for an issue (`archivedAt := new Date()`). -/
def toArchiveRecord (now : Nat) (i : Issue) : ArchiveRecord :=
  { issue := i, archivedAt := some now }

/-- The batch `SELECT ... LIMIT batchSize`. -/
def archiveBatchSelect (cutoff batchSize : Nat) (live : List Issue) : List Issue :=
  (live.filter (shouldArchive cutoff)).take batchSize

/-- The per-batch transaction: insert the batch into the archive store and
delete the same rows (by id) from the live store, atomically. -/
def archiveCommit (now : Nat) (batch : List Issue) (live : List Issue)
    (archive : List ArchiveRecord) : List Issue × List ArchiveRecord :=
  (live.filter (fun i => decide (i.id ∉ batch.map Issue.id)),
   archive ++ batch.map (toArchiveRecord now))

/-- One committed batch, as a step on the pair of stores. -/
def archiveStepPair (cutoff now batchSize : Nat)
    (p : List Issue × List ArchiveRecord) : List Issue × List ArchiveRecord :=
  archiveCommit now (archiveBatchSelect cutoff batchSize p.1) p.1 p.2

/-- The `while (hasMore)` loop of `archiveResolvedIssues`.  `failAfter`
injects a batch error at the given iteration index (the transaction rolls
back, the error is recorded, and the loop stops); `fuel` bounds the
recursion and is chosen large enough by the caller. -/
def archiveLoop (failAfter : Option Nat) (cutoff now batchSize : Nat) :
    Nat → Nat → List Issue → List ArchiveRecord → Nat → List String →
    ArchiveResult × List Issue × List ArchiveRecord
  | 0, _, live, archive, total, errors =>
    ({ archivedCount := total, errors := errors }, live, archive)
  | fuel + 1, k, live, archive, total, errors =>
    let batch := archiveBatchSelect cutoff batchSize live
    if batch.isEmpty then ({ archivedCount := total, errors := errors }, live, archive)
    else if failAfter = some k then
      ({ archivedCount := total, errors := errors ++ ["batch insert failed"] }, live, archive)
    else
      match archiveCommit now batch live archive with
      | (live1, archive1) =>
        if batch.length < batchSize then
          ({ archivedCount := total + batch.length, errors := errors }, live1, archive1)
        else
          archiveLoop failAfter cutoff now batchSize fuel (k + 1) live1 archive1
            (total + batch.length) errors

/-- `archiveResolvedIssues`: run the loop from the full live store. -/
def archiveResolvedIssues (failAfter : Option Nat) (cutoff now batchSize : Nat)
    (live : List Issue) (archive : List ArchiveRecord) :
    ArchiveResult × List Issue × List ArchiveRecord :=
  archiveLoop failAfter cutoff now batchSize (live.length + 1) 0 live archive 0 []

/-! ## Status-history invariant -/

/-- The most recent history entry of an issue. -/
def lastEntryFor (hist : List StatusHistoryEntry) (issueId : String) :
    Option StatusHistoryEntry :=
  (hist.filter (fun e => e.issueId == issueId)).getLast?

/-- Decidable form of the spec invariant: for every issue, the last history
entry recorded for it (when one exists) has `toStatus` equal to the issue's
current status. -/
def histInvB (s : SysState) : Bool :=
  s.issues.all (fun i =>
    match lastEntryFor s.history i.id with
    | some e => e.toStatus == i.status
    | none => true)

/-! ## Concrete fixtures used by witnesses and counterexamples -/

/-- A pending missed-installment issue referencing customer `c1` and
transaction `t1`. -/
def baseIssue : Issue :=
  { id := "i1", type := "missed_installment", status := "pending", priority := "normal",
    customerId := "c1", transactionId := "t1",
    details := .missedInstallment
      { installment_number := 1, total_installments := 4,
        amount_due := 25, days_overdue := 3 },
    retryCount := 0, lastRetryAt := none, automatedDecision := none,
    automatedDecisionConfidence := none, automatedDecisionReason := none,
    humanDecision := none, humanDecisionReason := none, humanReviewerEmail := none,
    humanReviewedAt := none, finalResolution := none, resolutionReason := none,
    createdAt := 0, updatedAt := 0, resolvedAt := none }

/-- A low-risk customer with a solid payment history. -/
def baseCustomer : Customer :=
  { id := "c1", riskScore := "low", successfulPayments := 8, lifetimeTransactions := 12 }

/-- A plain one-off transaction. -/
def baseTransaction : Transaction :=
  { id := "t1", isRecurring := false, installmentPlan := none, shippingInfo := none }

/-- State for the missing-customer scenario: the issue row exists, its
customer does not. -/
def stateMissingCustomer : SysState :=
  { locks := [], issues := [baseIssue], customers := [], transactions := [],
    history := [], analytics := [] }

/-- Fully-populated state with a pending issue. -/
def statePending : SysState :=
  { locks := [], issues := [baseIssue], customers := [baseCustomer],
    transactions := [baseTransaction], history := [], analytics := [] }

/-- The base issue already in terminal `resolved` status. -/
def issueResolved : Issue := { baseIssue with status := "resolved" }

/-- State whose only issue is already resolved. -/
def stateResolved : SysState := { statePending with issues := [issueResolved] }

/-- Rejection condition enforced by `parseAIResponse`: a missing or empty
`decision` or `action`, a missing `confidence`, an out-of-enum `decision`
or `action`, or an out-of-range `confidence`. -/
def aiParseRejected (p : ParsedAIJson) : Prop :=
  p.decision = none ∨ p.action = none ∨ p.confidence = none ∨
  p.decision = some "" ∨ p.action = some "" ∨
  (∃ d, p.decision = some d ∧ validDecisions.contains d = false) ∨
  (∃ a, p.action = some a ∧ validActions.contains a = false) ∨
  (∃ c, p.confidence = some c ∧ (c < 0 ∨ c > 100))

/-- Count of live rows matched by the archival `WHERE` clause. -/
def archMatchCount (cutoff : Nat) (live : List Issue) : Nat :=
  (live.filter (shouldArchive cutoff)).length

/-- Missed-installment issue 20 days overdue. -/
def issueOverdue20 : Issue :=
  { baseIssue with
    details := .missedInstallment
      { installment_number := 2, total_installments := 4,
        amount_due := 25, days_overdue := 20 } }

/-- A validated AI decision that auto-resolves with action `approve_retry`. -/
def aiApproveRetry : AIDecision :=
  { decision := "auto_resolve", action := "approve_retry", confidence := 92,
    reasoning := "history is strong", policyApplied := "decline-policy" }

/-- Parsed AI output whose only absent fields are the optional ones. -/
def parsedMissingOptionalFields : ParsedAIJson :=
  { decision := some "auto_resolve", action := some "approve_refund",
    confidence := some 50, reasoning := none, policyApplied := none }

/-- Parsed AI output missing the required `decision` field. -/
def parsedMissingDecision : ParsedAIJson :=
  { decision := none, action := some "approve_refund", confidence := some 50,
    reasoning := some "r", policyApplied := some "p" }

/-- An old resolved issue, eligible for archival at cutoff 100. -/
def issueArchA : Issue := { baseIssue with id := "a1", status := "resolved", updatedAt := 10 }

/-- An old failed issue, eligible for archival at cutoff 100. -/
def issueArchB : Issue := { baseIssue with id := "a2", status := "failed", updatedAt := 20 }

/-- A live store mixing archivable and non-archivable rows. -/
def liveArchSample : List Issue := [issueArchA, baseIssue, issueArchB]

/-- Unified decision as produced by the AI path with routing auto_resolve. -/
def udAiAuto : UnifiedDecision :=
  { decision := "approve_retry", confidence := (0.92 : ℚ), reason := "ok", source := "ai",
    aiRouting := some "auto_resolve", policyApplied := some "decline-policy" }

/-- Unified decision as produced by the rules path with an escalation. -/
def udRulesEscalate : UnifiedDecision :=
  { decision := "escalate", confidence := (0.99 : ℚ), reason := "needs review",
    source := "rules", aiRouting := none, policyApplied := none }

/-- Unified decision as produced by the rules path with a retry. -/
def udRulesRetry : UnifiedDecision :=
  { decision := "retry_payment", confidence := (0.85 : ℚ), reason := "retry",
    source := "rules", aiRouting := none, policyApplied := none }

/-! ## Theorems -/

/-- C3: when the configured decision-engine mode is "ai" and the AI engine
raises any error, the router returns a UnifiedDecision with source "rules"
whose decision, confidence and reason are exactly those of evaluating the
same issue, customer and transaction directly with the rules engine. -/
theorem C3_ai_error_fallback_matches_rules
    (err : String) (issue : Issue) (customer : Customer) (transaction : Transaction) :
    decisionEngineRouter.evaluate "ai" (Except.error err) issue customer transaction =
      { decision := (decisionEngine.evaluate issue customer transaction).decision,
        confidence := (decisionEngine.evaluate issue customer transaction).confidence,
        reason := (decisionEngine.evaluate issue customer transaction).reason,
        source := "rules", aiRouting := none, policyApplied := none } := rfl

/-- C6: auto-resolve classification: for an AI-sourced decision it is true
exactly when the AI routing class is auto_resolve; for a rules-sourced
decision it is false for any escalate decision regardless of confidence and
otherwise true exactly when the confidence reaches the configured global
threshold. -/
theorem C6_shouldAutoResolve_cases (threshold : ℚ) (d : UnifiedDecision) :
    (d.source = "ai" →
      (decisionEngineRouter.shouldAutoResolve threshold d = true ↔
        d.aiRouting = some "auto_resolve")) ∧
    (d.source = "rules" →
      (d.decision = "escalate" →
        decisionEngineRouter.shouldAutoResolve threshold d = false) ∧
      (d.decision ≠ "escalate" →
        (decisionEngineRouter.shouldAutoResolve threshold d = true ↔
          threshold ≤ d.confidence))) := by
  refine ⟨fun hai => ?_, fun hr => ⟨fun hesc => ?_, fun hne => ?_⟩⟩
  · simp [decisionEngineRouter.shouldAutoResolve, hai]
  · have : d.source ≠ "ai" := by rw [hr]; decide
    simp [decisionEngineRouter.shouldAutoResolve, this, hesc]
  · have : d.source ≠ "ai" := by rw [hr]; decide
    simp [decisionEngineRouter.shouldAutoResolve, this, hne, ge_iff_le]

/-- C6 witness: the classification evaluated at concrete decisions. -/
theorem C6_shouldAutoResolve_cases_witness :
    decisionEngineRouter.shouldAutoResolve (0.8 : ℚ) udAiAuto = true ∧
    decisionEngineRouter.shouldAutoResolve (0.8 : ℚ) udRulesEscalate = false ∧
    decisionEngineRouter.shouldAutoResolve (0.8 : ℚ) udRulesRetry = true := by
  refine ⟨?_, ?_, ?_⟩
  · exact ((C6_shouldAutoResolve_cases (0.8 : ℚ) udAiAuto).1 (by decide)).mpr (by decide)
  · exact ((C6_shouldAutoResolve_cases (0.8 : ℚ) udRulesEscalate).2 (by decide)).1 (by decide)
  · exact ((C6_shouldAutoResolve_cases (0.8 : ℚ) udRulesRetry).2 (by decide)).2 (by decide)
      |>.mpr (by norm_num [udRulesRetry])

/-- C10 counterexample: the `decisionToResolution` switch enumerates nine
decision codes, not ten. -/
theorem C10_counterexample :
    decisionEngine.decisionToResolutionCases.length = 9 ∧
    ¬ decisionEngine.decisionToResolutionCases.length = 10 := by decide

/-- C10 (amended): `decisionToResolution` is total and returns the default
resolution "resolved" for every decision value outside its nine enumerated
rules-engine cases, including the AI action vocabulary values approve_retry
and reject; hence an AI decision that auto-resolves with one of those
actions is persisted with finalResolution "resolved". -/
theorem C10_decisionToResolution_default :
    (∀ decision : String, decision ∉ decisionEngine.decisionToResolutionCases →
      decisionEngine.decisionToResolution decision = "resolved") ∧
    decisionEngine.decisionToResolution "approve_retry" = "resolved" ∧
    decisionEngine.decisionToResolution "reject" = "resolved" ∧
    "approve_retry" ∉ decisionEngine.decisionToResolutionCases ∧
    "reject" ∉ decisionEngine.decisionToResolutionCases ∧
    decisionEngine.decisionToResolutionCases.length = 9 ∧
    ((findIssue (processIssue statePending "i1" "w1" 5 "ai" (Except.ok aiApproveRetry)
        (0.8 : ℚ) false).2 "i1").map Issue.finalResolution = some (some "resolved")) := by
  refine ⟨?_, by decide, by decide, by decide, by decide, by decide, by decide⟩
  intro d hd
  simp only [decisionEngine.decisionToResolutionCases, List.mem_cons, List.not_mem_nil,
    or_false, not_or] at hd
  obtain ⟨h1, h2, h3, h4, h5, h6, h7, h8, h9⟩ := hd
  simp [decisionEngine.decisionToResolution, h1, h2, h3, h4, h5, h6, h7, h8, h9]

/-- C10 witness: the default branch at a value outside the enumeration. -/
theorem C10_decisionToResolution_default_witness :
    decisionEngine.decisionToResolution "block_account" = "resolved" :=
  C10_decisionToResolution_default.1 "block_account" (by decide)

/-- C4 counterexample: a missed-installment issue 20 days overdue for a
low-risk customer is escalated by the rules engine, not given a reminder. -/
theorem C4_counterexample :
    (decisionEngine.evaluate issueOverdue20 baseCustomer baseTransaction).decision
      = "escalate" ∧
    (decisionEngine.evaluate issueOverdue20 baseCustomer baseTransaction).decision
      ≠ "send_reminder" := by decide

/-- C4 (amended): for a missed_installment issue, days_overdue ≤ 7 with risk
not high yields a reminder; days_overdue > 30 yields escalate; days_overdue
between 8 and 14 with low risk yields a reminder; in all other cases the
rules engine escalates. -/
theorem C4_missed_installment_rules
    (issue : Issue) (customer : Customer) (transaction : Transaction)
    (d : MissedInstallmentDetails)
    (htype : issue.type = "missed_installment")
    (hdet : issue.details = .missedInstallment d) :
    (d.days_overdue ≤ 7 ∧ customer.riskScore ≠ "high" →
      (decisionEngine.evaluate issue customer transaction).decision = "send_reminder") ∧
    (d.days_overdue > 30 →
      (decisionEngine.evaluate issue customer transaction).decision = "escalate") ∧
    (8 ≤ d.days_overdue ∧ d.days_overdue ≤ 14 ∧ customer.riskScore = "low" →
      (decisionEngine.evaluate issue customer transaction).decision = "send_reminder") ∧
    (¬(d.days_overdue ≤ 7 ∧ customer.riskScore ≠ "high") → ¬(d.days_overdue > 30) →
      ¬(8 ≤ d.days_overdue ∧ d.days_overdue ≤ 14 ∧ customer.riskScore = "low") →
      (decisionEngine.evaluate issue customer transaction).decision = "escalate") := by
  have hev : decisionEngine.evaluate issue customer transaction =
      decisionEngine.evaluateMissedInstallment issue customer := by
    have h1 : issue.type ≠ "decline" := by rw [htype]; decide
    simp [decisionEngine.evaluate, h1, htype]
  rw [hev]
  simp only [decisionEngine.evaluateMissedInstallment, hdet]
  refine ⟨fun h => ?_, fun h => ?_, fun h => ?_, fun h1 h2 h3 => ?_⟩
  · rw [if_pos h]
  · rw [if_neg (fun hc => absurd hc.1 (by omega)), if_pos h]
  · obtain ⟨h8, h14, hlow⟩ := h
    rw [if_neg (fun hc => absurd hc.1 (by omega)), if_neg (by omega), if_pos ⟨hlow, h14⟩]
  · rw [if_neg h1, if_neg h2]
    split_ifs with h4
    · exfalso
      rcases h4 with ⟨hlow, h14⟩
      by_cases h7 : d.days_overdue ≤ 7
      · exact h1 ⟨h7, by rw [hlow]; decide⟩
      · exact h3 ⟨by omega, h14, hlow⟩
    · rfl

/-- C4 witness: the amended rules evaluated at concrete inputs. -/
theorem C4_missed_installment_rules_witness :
    (decisionEngine.evaluate baseIssue baseCustomer baseTransaction).decision
      = "send_reminder" ∧
    (decisionEngine.evaluate issueOverdue20 baseCustomer baseTransaction).decision
      = "escalate" := by
  constructor
  · exact (C4_missed_installment_rules baseIssue baseCustomer baseTransaction
      { installment_number := 1, total_installments := 4, amount_due := 25,
        days_overdue := 3 } rfl rfl).1 (by decide)
  · exact (C4_missed_installment_rules issueOverdue20 baseCustomer baseTransaction
      { installment_number := 2, total_installments := 4, amount_due := 25,
        days_overdue := 20 } rfl rfl).2.2.2 (by decide) (by decide) (by decide)

/-- C5 counterexample: an AI response missing the optional `reasoning` and
`policyApplied` fields passes validation with defaulted values instead of
failing. -/
theorem C5_counterexample :
    parseAIResponse parsedMissingOptionalFields =
      Except.ok { decision := "auto_resolve", action := "approve_refund", confidence := 50,
                  reasoning := "No reasoning provided", policyApplied := "Unknown" } := rfl

/-- C5 (amended): when the required `decision`, `action` or `confidence`
field is missing (or `decision`/`action` is empty), or `decision`/`action`
is outside its enumerated set, or `confidence` is outside [0,100],
validation fails and the router falls back to the rules engine; the
optional `reasoning` and `policyApplied` fields are defaulted rather than
required. -/
theorem C5_invalid_ai_output_falls_back
    (p : ParsedAIJson) (issue : Issue) (customer : Customer) (transaction : Transaction)
    (h : aiParseRejected p) :
    (parseAIResponse p).isOk = false ∧
    decisionEngineRouter.evaluate "ai" (parseAIResponse p) issue customer transaction =
      decisionEngineRouter.rulesDecisionToUnified
        (decisionEngine.evaluate issue customer transaction) := by
  have hko : (parseAIResponse p).isOk = false := by
    rcases p with ⟨pd, pa, pc, pr, pp⟩
    simp only [aiParseRejected] at h
    cases pd <;> cases pa <;> cases pc <;> simp only [parseAIResponse] <;> try rfl
    split_ifs with h1 h2 h3 h4
    all_goals try rfl
    exfalso
    rcases h with h | h | h | h | h | ⟨d, hd, hc⟩ | ⟨a, ha, hc⟩ | ⟨c, hcc, hr⟩
    · exact Option.noConfusion h
    · exact Option.noConfusion h
    · exact Option.noConfusion h
    · exact h1 (Or.inl (Option.some.inj h))
    · exact h1 (Or.inr (Option.some.inj h))
    · rw [← Option.some.inj hd] at hc; rw [hc] at h2; exact Bool.noConfusion h2
    · rw [← Option.some.inj ha] at hc; rw [hc] at h3; exact Bool.noConfusion h3
    · rw [← Option.some.inj hcc] at hr; exact h4 hr
  refine ⟨hko, ?_⟩
  obtain ⟨m, hm⟩ : ∃ m, parseAIResponse p = Except.error m := by
    cases hp : parseAIResponse p with
    | ok v => rw [hp] at hko; simp [Except.isOk, Except.toBool] at hko
    | error m => exact ⟨m, rfl⟩
  rw [hm]
  rfl

/-- C5 witness: fallback at a response missing its `decision` field. -/
theorem C5_invalid_ai_output_falls_back_witness :
    (parseAIResponse parsedMissingDecision).isOk = false ∧
    decisionEngineRouter.evaluate "ai" (parseAIResponse parsedMissingDecision)
        baseIssue baseCustomer baseTransaction =
      decisionEngineRouter.rulesDecisionToUnified
        (decisionEngine.evaluate baseIssue baseCustomer baseTransaction) :=
  C5_invalid_ai_output_falls_back parsedMissingDecision baseIssue baseCustomer
    baseTransaction (Or.inl rfl)

/-- C9: at most one worker holds an issue's processing lock at any instant;
acquireLock succeeds exactly when no live lock key exists for the issue and
then installs the caller as owner with the 30-second TTL; releaseLock
deletes the key only when the stored owner equals the calling worker's id
and otherwise leaves the state unchanged. -/
theorem C9_lock_mutual_exclusion :
    (∀ (s : SysState) (now : Nat) (issueId w1 w2 : String),
      lockLive s.locks now (lockKey issueId) = some w1 →
      lockLive s.locks now (lockKey issueId) = some w2 → w1 = w2) ∧
    (∀ (s : SysState) (now : Nat) (issueId workerId : String),
      ((acquireLock s now issueId workerId).1 = true ↔
        lockLive s.locks now (lockKey issueId) = none) ∧
      ((acquireLock s now issueId workerId).1 = true →
        (acquireLock s now issueId workerId).2.locks =
          (lockKey issueId, workerId, now + LOCK_TTL_MS)
            :: lockErase s.locks (lockKey issueId))) ∧
    (∀ (s : SysState) (now : Nat) (issueId workerId owner : String),
      lockLive s.locks now (lockKey issueId) = some owner →
      (owner = workerId →
        (releaseLock s now issueId workerId).locks =
          lockErase s.locks (lockKey issueId)) ∧
      (owner ≠ workerId → releaseLock s now issueId workerId = s)) ∧
    (∀ (s : SysState) (now : Nat) (issueId workerId : String),
      lockLive s.locks now (lockKey issueId) = none →
      releaseLock s now issueId workerId = s) := by
  refine ⟨?_, ?_, ?_, ?_⟩
  · intro s now issueId w1 w2 h1 h2
    rw [h1] at h2
    exact Option.some.inj h2
  · intro s now issueId workerId
    unfold acquireLock lockSetNxPx
    cases h : lockLive s.locks now (lockKey issueId) with
    | some o => simp [h]
    | none => simp [h]
  · intro s now issueId workerId owner h
    unfold releaseLock
    rw [h]
    constructor
    · intro he
      dsimp only
      rw [if_pos he]
    · intro hne
      dsimp only
      rw [if_neg hne]
  · intro s now issueId workerId h
    unfold releaseLock
    rw [h]

/-- C9 witness: the lock primitives evaluated at a concrete keyspace. -/
theorem C9_lock_mutual_exclusion_witness :
    (acquireLock statePending 0 "i1" "w1").1 = true ∧ ("w1" : String) = "w1" ∧
    (releaseLock { statePending with locks := [("job:processing:i1", "w1", 100)] }
        0 "i1" "w1").locks = [] := by
  refine ⟨?_, ?_, ?_⟩
  · exact ((C9_lock_mutual_exclusion.2.1 statePending 0 "i1" "w1").1).mpr (by decide)
  · exact C9_lock_mutual_exclusion.1
      { statePending with locks := [("job:processing:i1", "w1", 100)] }
      0 "i1" "w1" "w1" (by decide) (by decide)
  · exact (C9_lock_mutual_exclusion.2.2.1
      { statePending with locks := [("job:processing:i1", "w1", 100)] }
      0 "i1" "w1" "w1" (by decide)).1 rfl

/-! ## Helper lemmas about the worker state machine -/

theorem listStartsWith_append (p : List Char) :
    ∀ l r, listStartsWith p l = true → listStartsWith p (l ++ r) = true := by
  induction p with
  | nil => intro l r _; rfl
  | cons a ps ih =>
    intro l r h
    cases l with
    | nil => cases h
    | cons c cs =>
      rw [List.cons_append]
      unfold listStartsWith at h ⊢
      rw [Bool.and_eq_true] at h ⊢
      exact ⟨h.1, ih cs r h.2⟩

theorem listContainsSub_append_left (p : List Char) :
    ∀ l r, listContainsSub p l = true → listContainsSub p (l ++ r) = true := by
  intro l
  induction l with
  | nil =>
    intro r h
    cases p with
    | nil =>
      cases r with
      | nil => rfl
      | cons c cs => unfold listContainsSub listStartsWith; rfl
    | cons a ps => cases h
  | cons c cs ih =>
    intro r h
    rw [List.cons_append]
    unfold listContainsSub at h ⊢
    rw [Bool.or_eq_true] at h ⊢
    rcases h with h | h
    · exact Or.inl (by
        have := listStartsWith_append p (c :: cs) r h
        rwa [List.cons_append] at this)
    · exact Or.inr (ih r h)

theorem strIncludes_append_left (a b pat : String) (h : strIncludes a pat = true) :
    strIncludes (a ++ b) pat = true := by
  unfold strIncludes at h ⊢
  have hdata : (a ++ b).data = a.data ++ b.data := rfl
  rw [hdata]
  exact listContainsSub_append_left _ _ _ h

theorem notFound_msg_includes (pre x : String) (h : strIncludes pre "not found" = true) :
    strIncludes (pre ++ x) "not found" = true :=
  strIncludes_append_left pre x "not found" h

theorem handleNonRetryable_skips_update (s : SysState) (issueId workerId : String)
    (now : Nat) (msg : String) (h : strIncludes msg "not found" = true) :
    handleNonRetryable s issueId workerId now msg =
      (.result { success := false, issueId := issueId, status := "failed",
                 decision := none, error := some msg }, s) := by
  unfold handleNonRetryable
  rw [if_pos h]

theorem lastEntryFor_append (hist : List StatusHistoryEntry) (e : StatusHistoryEntry)
    (id : String) :
    lastEntryFor (hist ++ [e]) id =
      if e.issueId = id then some e else lastEntryFor hist id := by
  unfold lastEntryFor
  rw [List.filter_append]
  by_cases h : e.issueId = id
  · rw [if_pos h]
    have hb : (fun x : StatusHistoryEntry => x.issueId == id) e = true := by
      simp [h]
    simp [List.filter, hb]
  · rw [if_neg h]
    have hb : (fun x : StatusHistoryEntry => x.issueId == id) e = false := by
      simp [h]
    simp [List.filter, hb]

theorem histInvB_eq_of_fields (s t : SysState) (hi : t.issues = s.issues)
    (hh : t.history = s.history) : histInvB t = histInvB s := by
  unfold histInvB
  rw [hi, hh]

theorem histInvB_record_step (s : SysState) (id : String) (now : Nat) (f : Issue → Issue)
    (e : StatusHistoryEntry)
    (hfid : ∀ i, (f i).id = i.id)
    (hfst : ∀ i, (f i).status = e.toStatus)
    (hid : e.issueId = id)
    (h : histInvB s = true) :
    histInvB (appendHistory (repoUpdate s id now f) e) = true := by
  unfold histInvB at h ⊢
  unfold appendHistory repoUpdate
  dsimp only at h ⊢
  rw [List.all_eq_true] at h ⊢
  intro j hj
  rw [List.mem_map] at hj
  obtain ⟨i, hi, rfl⟩ := hj
  have hinv := h i hi
  by_cases hii : i.id = id
  · rw [if_pos hii]
    dsimp only
    have hjid : ({ f i with updatedAt := now } : Issue).id = i.id := hfid i
    have hjst : ({ f i with updatedAt := now } : Issue).status = e.toStatus := hfst i
    rw [lastEntryFor_append, hjid, hii, if_pos hid]
    simp only [beq_iff_eq]
    exact hjst.symm
  · rw [if_neg hii]
    have : ¬ e.issueId = i.id := by rw [hid]; exact fun hc => hii hc.symm
    rw [lastEntryFor_append, if_neg this]
    exact hinv

theorem repoUpdateStatus_processing (s : SysState) (id : String) (now : Nat) :
    repoUpdateStatus s id "processing" now =
      repoUpdate s id now (fun i => { i with status := "processing" }) := by
  unfold repoUpdateStatus
  rw [if_neg (by decide)]

theorem acquireLock_snd_fields (s : SysState) (now : Nat) (issueId workerId : String) :
    ((acquireLock s now issueId workerId).2.issues = s.issues) ∧
    ((acquireLock s now issueId workerId).2.history = s.history) ∧
    ((acquireLock s now issueId workerId).2.analytics = s.analytics) ∧
    ((acquireLock s now issueId workerId).2.customers = s.customers) ∧
    ((acquireLock s now issueId workerId).2.transactions = s.transactions) := by
  unfold acquireLock lockSetNxPx
  cases lockLive s.locks now (lockKey issueId) <;> exact ⟨rfl, rfl, rfl, rfl, rfl⟩

theorem releaseLock_fields (s : SysState) (now : Nat) (issueId workerId : String) :
    ((releaseLock s now issueId workerId).issues = s.issues) ∧
    ((releaseLock s now issueId workerId).history = s.history) ∧
    ((releaseLock s now issueId workerId).analytics = s.analytics) ∧
    ((releaseLock s now issueId workerId).customers = s.customers) ∧
    ((releaseLock s now issueId workerId).transactions = s.transactions) := by
  unfold releaseLock
  cases lockLive s.locks now (lockKey issueId) with
  | none => exact ⟨rfl, rfl, rfl, rfl, rfl⟩
  | some o =>
    dsimp only
    split_ifs <;> exact ⟨rfl, rfl, rfl, rfl, rfl⟩

theorem acquireLock_success (s : SysState) (now : Nat) (issueId workerId : String)
    (h : lockLive s.locks now (lockKey issueId) = none) :
    acquireLock s now issueId workerId =
      (true, { s with locks := (lockKey issueId, workerId, now + LOCK_TTL_MS)
                        :: lockErase s.locks (lockKey issueId) }) := by
  unfold acquireLock lockSetNxPx
  rw [h]

theorem processIssueBody_nonpending (s : SysState) (issueId workerId : String) (now : Nat)
    (mode : String) (aiResult : Except String AIDecision) (threshold : ℚ) (fault : Bool)
    (issue : Issue) (hfind : findIssue s issueId = some issue)
    (hne : issue.status ≠ "pending") :
    processIssueBody s issueId workerId now mode aiResult threshold fault =
      (.result { success := true, issueId := issueId, status := issue.status,
                 decision := none, error := none }, s) := by
  unfold processIssueBody
  rw [hfind]
  dsimp only
  rw [if_pos hne]

theorem histField_ite_append_analytics (c : Bool) (x : SysState) (a : AnalyticsEntry) :
    (if c then appendAnalytics x a else x).history = x.history := by
  cases c <;> rfl

theorem handleRetryable_history (s : SysState) (issueId : String) (now : Nat) (msg : String) :
    (handleRetryable s issueId now msg).2.history = s.history := by
  unfold handleRetryable
  cases findIssue s issueId <;> rfl

theorem hist_extends_appendHistory (s0 y : SysState) (e : StatusHistoryEntry)
    (h : ∃ l, y.history = s0.history ++ l) :
    ∃ l, (appendHistory y e).history = s0.history ++ l := by
  obtain ⟨l, hl⟩ := h
  refine ⟨l ++ [e], ?_⟩
  show y.history ++ [e] = s0.history ++ (l ++ [e])
  rw [hl, List.append_assoc]

/-- C1 evaluation: with the issue row present but its customer missing, the
worker returns a failed result whose message contains "not found", the
issue is left in `processing` (no update to `failed`, no
processing→failed history entry), and the queue worker re-throws a plain
error so the job is retried. -/
theorem C1_missing_customer_code_behavior :
    (processIssue stateMissingCustomer "i1" "w1" 5 "rules" (Except.error "na")
        (0.8 : ℚ) false).1 =
      ProcOutcome.result { success := false, issueId := "i1", status := "failed",
                           decision := none, error := some "Customer not found: c1" } ∧
    ((findIssue (processIssue stateMissingCustomer "i1" "w1" 5 "rules" (Except.error "na")
        (0.8 : ℚ) false).2 "i1").map Issue.status = some "processing") ∧
    ((processIssue stateMissingCustomer "i1" "w1" 5 "rules" (Except.error "na")
        (0.8 : ℚ) false).2.history.map StatusHistoryEntry.toStatus = ["processing"]) ∧
    processJob (processIssue stateMissingCustomer "i1" "w1" 5 "rules" (Except.error "na")
        (0.8 : ℚ) false).1 = JobOutcome.retryAgain "Customer not found: c1" := by
  decide

/-- C7: processing an issue whose status is already resolved or failed is a
pure no-op: it returns success carrying the current status and leaves the
issue store, the history log, the analytics sink and the other stores
untouched. -/
theorem C7_terminal_status_noop
    (s : SysState) (issueId workerId : String) (now : Nat) (mode : String)
    (aiResult : Except String AIDecision) (threshold : ℚ) (fault : Bool) (issue : Issue)
    (hlock : lockLive s.locks now (lockKey issueId) = none)
    (hfind : findIssue s issueId = some issue)
    (hst : issue.status = "resolved" ∨ issue.status = "failed") :
    (processIssue s issueId workerId now mode aiResult threshold fault).1 =
      ProcOutcome.result { success := true, issueId := issueId, status := issue.status,
                           decision := none, error := none } ∧
    (processIssue s issueId workerId now mode aiResult threshold fault).2.issues = s.issues ∧
    (processIssue s issueId workerId now mode aiResult threshold fault).2.history = s.history ∧
    (processIssue s issueId workerId now mode aiResult threshold fault).2.analytics
      = s.analytics ∧
    (processIssue s issueId workerId now mode aiResult threshold fault).2.customers
      = s.customers ∧
    (processIssue s issueId workerId now mode aiResult threshold fault).2.transactions
      = s.transactions := by
  have hne : issue.status ≠ "pending" := by
    rcases hst with h | h <;> rw [h] <;> decide
  have hfind1 : findIssue { s with locks := ((lockKey issueId, workerId, now + LOCK_TTL_MS) :: lockErase s.locks (lockKey issueId)) } issueId = some issue := hfind
  have hbody := processIssueBody_nonpending
    { s with locks := ((lockKey issueId, workerId, now + LOCK_TTL_MS) :: lockErase s.locks (lockKey issueId)) }
    issueId workerId now mode aiResult threshold fault issue hfind1 hne
  have hproc : processIssue s issueId workerId now mode aiResult threshold fault =
      (.result { success := true, issueId := issueId, status := issue.status,
                 decision := none, error := none },
       releaseLock { s with locks := ((lockKey issueId, workerId, now + LOCK_TTL_MS) :: lockErase s.locks (lockKey issueId)) } now issueId workerId) := by
    unfold processIssue
    rw [acquireLock_success s now issueId workerId hlock]
    dsimp only
    rw [hbody]
  rw [hproc]
  have hrel := releaseLock_fields
    { s with locks := ((lockKey issueId, workerId, now + LOCK_TTL_MS) :: lockErase s.locks (lockKey issueId)) } now issueId workerId
  exact ⟨rfl, hrel.1, hrel.2.1, hrel.2.2.1, hrel.2.2.2.1, hrel.2.2.2.2⟩

/-- C7 witness: the no-op evaluated at a concrete resolved issue. -/
theorem C7_terminal_status_noop_witness :
    (processIssue stateResolved "i1" "w1" 5 "rules" (Except.error "e") (0.8 : ℚ) false).1 =
      ProcOutcome.result { success := true, issueId := "i1", status := "resolved",
                           decision := none, error := none } ∧
    (processIssue stateResolved "i1" "w1" 5 "rules" (Except.error "e")
        (0.8 : ℚ) false).2.issues = stateResolved.issues ∧
    (processIssue stateResolved "i1" "w1" 5 "rules" (Except.error "e")
        (0.8 : ℚ) false).2.history = stateResolved.history := by
  have h := C7_terminal_status_noop stateResolved "i1" "w1" 5 "rules" (Except.error "e")
    (0.8 : ℚ) false issueResolved rfl (by decide) (Or.inl rfl)
  exact ⟨h.1, h.2.1, h.2.2.1⟩

theorem histInvB_ite_append_analytics (c : Bool) (x : SysState) (a : AnalyticsEntry) :
    histInvB (if c then appendAnalytics x a else x) = histInvB x := by
  cases c <;> rfl

theorem stepToProcessing_histInv (s : SysState) (issueId workerId : String) (now : Nat)
    (h : histInvB s = true) :
    histInvB (stepToProcessing s issueId workerId now) = true := by
  unfold stepToProcessing
  rw [repoUpdateStatus_processing]
  exact histInvB_record_step s issueId now _ _ (fun i => rfl) (fun i => rfl) rfl h

theorem stepToProcessing_history (s : SysState) (issueId workerId : String) (now : Nat) :
    (stepToProcessing s issueId workerId now).history =
      s.history ++ [startedProcessingEntry issueId workerId] := by
  unfold stepToProcessing
  rw [repoUpdateStatus_processing]
  rfl

theorem processDecision_histInv (s1 : SysState) (issueId workerId : String) (now : Nat)
    (decision : UnifiedDecision) (threshold : ℚ) (h : histInvB s1 = true) :
    histInvB (processDecision s1 issueId workerId now decision threshold).2 = true := by
  unfold processDecision
  dsimp only
  rw [histInvB_ite_append_analytics]
  exact histInvB_record_step _ issueId now _ _
    (fun i => by split_ifs <;> rfl)
    (fun i => by split_ifs <;> rfl) rfl h

theorem processDecision_history (s1 : SysState) (issueId workerId : String) (now : Nat)
    (decision : UnifiedDecision) (threshold : ℚ) :
    ∃ l, (processDecision s1 issueId workerId now decision threshold).2.history
      = s1.history ++ l := by
  unfold processDecision
  dsimp only
  rw [histField_ite_append_analytics]
  exact hist_extends_appendHistory s1 _ _ ⟨[], (List.append_nil _).symm⟩

theorem processAfterPending_histInv (s : SysState) (issueId workerId : String) (now : Nat)
    (mode : String) (aiResult : Except String AIDecision) (threshold : ℚ) (issue : Issue)
    (h : histInvB s = true) :
    histInvB (processAfterPending s issueId workerId now mode aiResult threshold
      false issue).2 = true := by
  have h1 := stepToProcessing_histInv s issueId workerId now h
  unfold processAfterPending
  split
  · rw [handleNonRetryable_skips_update _ _ _ _ _
      (notFound_msg_includes "Customer not found: " issue.customerId (by decide))]
    exact h1
  · split
    · rw [handleNonRetryable_skips_update _ _ _ _ _
        (notFound_msg_includes "Transaction not found: " issue.transactionId (by decide))]
      exact h1
    · rw [if_neg (show ¬ false = true by decide)]
      exact processDecision_histInv _ issueId workerId now _ threshold h1

theorem processAfterPending_history (s : SysState) (issueId workerId : String) (now : Nat)
    (mode : String) (aiResult : Except String AIDecision) (threshold : ℚ) (fault : Bool)
    (issue : Issue) :
    ∃ l, (processAfterPending s issueId workerId now mode aiResult threshold
      fault issue).2.history = s.history ++ l := by
  have h1 := stepToProcessing_history s issueId workerId now
  unfold processAfterPending
  split
  · rw [handleNonRetryable_skips_update _ _ _ _ _
      (notFound_msg_includes "Customer not found: " issue.customerId (by decide))]
    exact ⟨_, h1⟩
  · split
    · rw [handleNonRetryable_skips_update _ _ _ _ _
        (notFound_msg_includes "Transaction not found: " issue.transactionId (by decide))]
      exact ⟨_, h1⟩
    · cases fault with
      | true =>
        rw [if_pos rfl, handleRetryable_history]
        exact ⟨_, h1⟩
      | false =>
        rw [if_neg (show ¬ false = true by decide)]
        obtain ⟨l, hl⟩ := processDecision_history (stepToProcessing s issueId workerId now)
          issueId workerId now _ threshold
        rw [hl, h1, List.append_assoc]
        exact ⟨_, rfl⟩

theorem processIssueBody_preserves (s : SysState) (issueId workerId : String) (now : Nat)
    (mode : String) (aiResult : Except String AIDecision) (threshold : ℚ)
    (h : histInvB s = true) :
    histInvB (processIssueBody s issueId workerId now mode aiResult threshold false).2
      = true := by
  unfold processIssueBody
  split
  · rw [handleNonRetryable_skips_update _ _ _ _ _
      (notFound_msg_includes "Issue not found: " issueId (by decide))]
    exact h
  next issue hf =>
    split
    · exact h
    · exact processAfterPending_histInv s issueId workerId now mode aiResult threshold issue h

theorem processIssueBody_history_extends (s : SysState) (issueId workerId : String)
    (now : Nat) (mode : String) (aiResult : Except String AIDecision) (threshold : ℚ)
    (fault : Bool) :
    ∃ added, (processIssueBody s issueId workerId now mode aiResult threshold fault).2.history
      = s.history ++ added := by
  unfold processIssueBody
  split
  · rw [handleNonRetryable_skips_update _ _ _ _ _
      (notFound_msg_includes "Issue not found: " issueId (by decide))]
    exact ⟨[], (List.append_nil _).symm⟩
  next issue hf =>
    split
    · exact ⟨[], (List.append_nil _).symm⟩
    · exact processAfterPending_history s issueId workerId now mode aiResult threshold
        fault issue

theorem processIssue_histInv_and_extends (s : SysState) (issueId workerId : String)
    (now : Nat) (mode : String) (aiResult : Except String AIDecision) (threshold : ℚ)
    (fault : Bool) (h : histInvB s = true) :
    (fault = false →
      histInvB (processIssue s issueId workerId now mode aiResult threshold fault).2 = true) ∧
    (∃ added, (processIssue s issueId workerId now mode aiResult threshold fault).2.history
      = s.history ++ added) := by
  unfold processIssue
  cases hl : lockLive s.locks now (lockKey issueId) with
  | some o =>
    have hA : acquireLock s now issueId workerId = (false, s) := by
      unfold acquireLock lockSetNxPx
      rw [hl]
    rw [hA]
    exact ⟨fun _ => h, ⟨[], (List.append_nil _).symm⟩⟩
  | none =>
    rw [acquireLock_success s now issueId workerId hl]
    dsimp only
    rcases hB : processIssueBody { s with locks := ((lockKey issueId, workerId,
        now + LOCK_TTL_MS) :: lockErase s.locks (lockKey issueId)) }
        issueId workerId now mode aiResult threshold fault with ⟨out, s2⟩
    dsimp only
    constructor
    · intro hfault
      subst hfault
      have h2 : histInvB s2 = true := by
        have hx := processIssueBody_preserves { s with locks := ((lockKey issueId, workerId,
            now + LOCK_TTL_MS) :: lockErase s.locks (lockKey issueId)) }
            issueId workerId now mode aiResult threshold h
        rw [hB] at hx
        exact hx
      have hr := releaseLock_fields s2 now issueId workerId
      rw [histInvB_eq_of_fields s2 _ hr.1 hr.2.1]
      exact h2
    · have hx := processIssueBody_history_extends { s with locks := ((lockKey issueId,
          workerId, now + LOCK_TTL_MS) :: lockErase s.locks (lockKey issueId)) }
          issueId workerId now mode aiResult threshold fault
      rw [hB] at hx
      obtain ⟨l, hl2⟩ := hx
      exact ⟨l, by rw [(releaseLock_fields s2 now issueId workerId).2.1]; exact hl2⟩

theorem reviewIssue_histInv (s : SysState) (id decision reason reviewerEmail : String)
    (now : Nat) (h : histInvB s = true) :
    histInvB (reviewIssue s id decision reason reviewerEmail now).2 = true ∧
    ∃ added, (reviewIssue s id decision reason reviewerEmail now).2.history
      = s.history ++ added := by
  unfold reviewIssue
  cases hf : findIssue s id with
  | none => exact ⟨h, ⟨[], (List.append_nil _).symm⟩⟩
  | some issue =>
    dsimp only
    by_cases hs : issue.status ≠ "awaiting_review"
    · rw [if_pos hs]
      exact ⟨h, ⟨[], (List.append_nil _).symm⟩⟩
    · rw [if_neg hs]
      constructor
      · cases issue.automatedDecision with
        | none =>
          exact histInvB_record_step s id now _ _ (fun i => rfl) (fun i => rfl) rfl h
        | some auto =>
          dsimp only
          split_ifs <;>
            exact histInvB_record_step s id now _ _ (fun i => rfl) (fun i => rfl) rfl h
      · cases issue.automatedDecision with
        | none => exact ⟨_, rfl⟩
        | some auto =>
          dsimp only
          split_ifs <;> exact ⟨_, rfl⟩

/-- C2 counterexample: a transient (retryable) failure resets the issue to
`pending` without recording the processing→pending transition, so the last
history entry's toStatus is `processing` while the issue's status is
`pending`, and the invariant is violated. -/
theorem C2_counterexample :
    histInvB (processIssue statePending "i1" "w1" 5 "rules" (Except.error "e")
      (0.8 : ℚ) true).2 = false ∧
    ((findIssue (processIssue statePending "i1" "w1" 5 "rules" (Except.error "e")
        (0.8 : ℚ) true).2 "i1").map Issue.status = some "pending") ∧
    ((lastEntryFor (processIssue statePending "i1" "w1" 5 "rules" (Except.error "e")
        (0.8 : ℚ) true).2.history "i1").map StatusHistoryEntry.toStatus
      = some "processing") := by
  decide

/-- C2 (amended): the status-history log is append-only after every worker
run; after every run without a transient fault (processing success,
non-retryable failure, idempotent skip) and after every human review the
last recorded entry's toStatus equals each issue's current status; the
retryable-failure reset processing→pending is the one transition that is
not recorded. -/
theorem C2_status_history_invariant
    (s : SysState) (issueId workerId : String) (now : Nat) (mode : String)
    (aiResult : Except String AIDecision) (threshold : ℚ)
    (hinv : histInvB s = true) :
    (histInvB (processIssue s issueId workerId now mode aiResult threshold false).2
      = true) ∧
    (∀ fault, ∃ added,
      (processIssue s issueId workerId now mode aiResult threshold fault).2.history =
        s.history ++ added) ∧
    (∀ id decision reason reviewerEmail,
      histInvB (reviewIssue s id decision reason reviewerEmail now).2 = true ∧
      ∃ added, (reviewIssue s id decision reason reviewerEmail now).2.history =
        s.history ++ added) :=
  ⟨(processIssue_histInv_and_extends s issueId workerId now mode aiResult threshold
      false hinv).1 rfl,
   fun fault => (processIssue_histInv_and_extends s issueId workerId now mode aiResult
      threshold fault hinv).2,
   fun id decision reason reviewerEmail =>
     reviewIssue_histInv s id decision reason reviewerEmail now hinv⟩

/-- C2 witness: the invariant holds after a successful concrete run. -/
theorem C2_status_history_invariant_witness :
    histInvB (processIssue statePending "i1" "w1" 5 "rules" (Except.error "e")
      (0.8 : ℚ) false).2 = true :=
  (C2_status_history_invariant statePending "i1" "w1" 5 "rules" (Except.error "e")
    (0.8 : ℚ) (by decide)).1

/-! ## Helper lemmas about the archival job -/

theorem ids_nodup_filter (live : List Issue) (q : Issue → Bool)
    (hnd : (live.map Issue.id).Nodup) : ((live.filter q).map Issue.id).Nodup :=
  List.Nodup.sublist (List.Sublist.map Issue.id (List.filter_sublist live)) hnd

theorem take_isEmpty_false {l : List Issue} {n : Nat} (hl : l ≠ []) (hn : 0 < n) :
    (l.take n).isEmpty = false := by
  cases l with
  | nil => exact absurd rfl hl
  | cons a l =>
    cases n with
    | zero => omega
    | succ n => rfl

theorem filter_not_mem_append {b D : List Issue}
    (h : ((b ++ D).map Issue.id).Nodup) :
    (b ++ D).filter (fun i => decide (i.id ∉ b.map Issue.id)) = D := by
  rw [List.filter_append]
  have hMN : (b ++ D).Nodup := List.Nodup.of_map Issue.id h
  have hdisj := List.disjoint_of_nodup_append hMN
  have h1 : b.filter (fun i => decide (i.id ∉ b.map Issue.id)) = [] := by
    rw [List.filter_eq_nil_iff]
    intro x hx
    simp only [decide_eq_true_eq, not_not]
    exact List.mem_map_of_mem Issue.id hx
  have h2 : D.filter (fun i => decide (i.id ∉ b.map Issue.id)) = D := by
    rw [List.filter_eq_self]
    intro x hx
    simp only [decide_eq_true_eq]
    intro hmem
    obtain ⟨y, hy, hyx⟩ := List.mem_map.mp hmem
    have hxy : y = x := List.inj_on_of_nodup_map h
      (List.mem_append_left D hy) (List.mem_append_right b hx) hyx
    subst hxy
    exact hdisj hy hx
  rw [h1, h2, List.nil_append]

theorem archive_filter_matching (cutoff : Nat) (live : List Issue) (n : Nat)
    (hnd : (live.map Issue.id).Nodup) :
    (live.filter (fun i =>
        decide (i.id ∉ ((live.filter (shouldArchive cutoff)).take n).map Issue.id))).filter
      (shouldArchive cutoff)
      = (live.filter (shouldArchive cutoff)).drop n := by
  have hcomm : (live.filter (fun i =>
      decide (i.id ∉ ((live.filter (shouldArchive cutoff)).take n).map Issue.id))).filter
        (shouldArchive cutoff) =
      (live.filter (shouldArchive cutoff)).filter (fun i =>
        decide (i.id ∉ ((live.filter (shouldArchive cutoff)).take n).map Issue.id)) := by
    rw [List.filter_filter, List.filter_filter]
    exact List.filter_congr (fun x _ => Bool.and_comm _ _)
  rw [hcomm]
  have hMnodup : ((live.filter (shouldArchive cutoff)).map Issue.id).Nodup :=
    ids_nodup_filter live _ hnd
  have hkey := filter_not_mem_append
    (b := (live.filter (shouldArchive cutoff)).take n)
    (D := (live.filter (shouldArchive cutoff)).drop n)
    (by rw [List.take_append_drop]; exact hMnodup)
  rw [List.take_append_drop] at hkey
  exact hkey

theorem archive_filter_nonmatching (cutoff : Nat) (live : List Issue) (n : Nat)
    (hnd : (live.map Issue.id).Nodup) :
    (live.filter (fun i =>
        decide (i.id ∉ ((live.filter (shouldArchive cutoff)).take n).map Issue.id))).filter
      (fun i => !(shouldArchive cutoff i))
      = live.filter (fun i => !(shouldArchive cutoff i)) := by
  rw [List.filter_filter]
  apply List.filter_congr
  intro x hx
  cases hPx : shouldArchive cutoff x with
  | true => simp [hPx]
  | false =>
    simp only [hPx, Bool.not_false, Bool.true_and]
    simp only [decide_eq_true_eq]
    intro hmem
    obtain ⟨y, hy, hyx⟩ := List.mem_map.mp hmem
    have hyM : y ∈ live.filter (shouldArchive cutoff) := List.take_subset n _ hy
    have hylive : y ∈ live := List.mem_of_mem_filter hyM
    have hPy : shouldArchive cutoff y = true := List.of_mem_filter hyM
    have hxy : y = x := List.inj_on_of_nodup_map hnd hylive hx hyx
    subst hxy
    rw [hPy] at hPx
    cases hPx

theorem archive_filter_all (cutoff : Nat) (live : List Issue)
    (hnd : (live.map Issue.id).Nodup) :
    live.filter (fun i =>
        decide (i.id ∉ (live.filter (shouldArchive cutoff)).map Issue.id))
      = live.filter (fun i => !(shouldArchive cutoff i)) := by
  apply List.filter_congr
  intro x hx
  cases hPx : shouldArchive cutoff x with
  | true =>
    have hxM : x ∈ live.filter (shouldArchive cutoff) := List.mem_filter.mpr ⟨hx, hPx⟩
    have hmem : x.id ∈ (live.filter (shouldArchive cutoff)).map Issue.id :=
      List.mem_map_of_mem Issue.id hxM
    simp [hmem]
  | false =>
    simp only [Bool.not_false, decide_eq_true_eq]
    intro hmem
    obtain ⟨y, hy, hyx⟩ := List.mem_map.mp hmem
    have hylive : y ∈ live := List.mem_of_mem_filter hy
    have hPy : shouldArchive cutoff y = true := List.of_mem_filter hy
    have hxy : y = x := List.inj_on_of_nodup_map hnd hylive hx hyx
    subst hxy
    rw [hPy] at hPx
    cases hPx

theorem archiveLoop_no_fault (cutoff now batchSize : Nat) (hbs : 0 < batchSize) :
    ∀ (fuel : Nat) (live : List Issue) (archive : List ArchiveRecord) (k total : Nat)
      (errors : List String),
      (live.map Issue.id).Nodup →
      (live.filter (shouldArchive cutoff)).length < fuel →
      archiveLoop none cutoff now batchSize fuel k live archive total errors =
        ({ archivedCount := total + (live.filter (shouldArchive cutoff)).length,
           errors := errors },
         live.filter (fun i => !(shouldArchive cutoff i)),
         archive ++ (live.filter (shouldArchive cutoff)).map (toArchiveRecord now)) := by
  intro fuel
  induction fuel with
  | zero =>
    intro live archive k total errors _ hfuel
    omega
  | succ fuel ih =>
    intro live archive k total errors hnd hfuel
    unfold archiveLoop
    dsimp only
    unfold archiveBatchSelect
    by_cases hM : live.filter (shouldArchive cutoff) = []
    · have hempty : ((live.filter (shouldArchive cutoff)).take batchSize).isEmpty = true := by
        rw [hM, List.take_nil]
        rfl
      rw [if_pos hempty]
      have hlive : live.filter (fun i => !(shouldArchive cutoff i)) = live := by
        rw [List.filter_eq_self]
        intro a ha
        have hPa := List.filter_eq_nil_iff.mp hM a ha
        cases hq : shouldArchive cutoff a
        · rfl
        · exact absurd hq hPa
      rw [hM, hlive]
      simp
    · have hempty : ((live.filter (shouldArchive cutoff)).take batchSize).isEmpty = false :=
        take_isEmpty_false hM hbs
      simp only [hempty, Bool.false_eq_true, if_false]
      rw [if_neg (show ¬ (none : Option Nat) = some k from fun h => Option.noConfusion h)]
      unfold archiveCommit
      dsimp only
      by_cases hlen : ((live.filter (shouldArchive cutoff)).take batchSize).length < batchSize
      · rw [if_pos hlen]
        have hball : (live.filter (shouldArchive cutoff)).take batchSize
            = live.filter (shouldArchive cutoff) := by
          apply List.take_of_length_le
          rw [List.length_take] at hlen
          rcases Nat.le_total batchSize (live.filter (shouldArchive cutoff)).length with hle | hle
          · rw [Nat.min_eq_left hle] at hlen
            omega
          · exact hle
        rw [hball, archive_filter_all cutoff live hnd]
      · rw [if_neg hlen]
        have hble : batchSize ≤ (live.filter (shouldArchive cutoff)).length := by
          by_contra hcon
          push_neg at hcon
          apply hlen
          rw [List.length_take, Nat.min_eq_right (Nat.le_of_lt hcon)]
          exact hcon
        have hnd1 : ((live.filter (fun i => decide (i.id ∉
            ((live.filter (shouldArchive cutoff)).take batchSize).map Issue.id))).map
              Issue.id).Nodup := ids_nodup_filter live _ hnd
        have hfilter1 := archive_filter_matching cutoff live batchSize hnd
        have hfuel1 : ((live.filter (fun i => decide (i.id ∉
            ((live.filter (shouldArchive cutoff)).take batchSize).map Issue.id))).filter
              (shouldArchive cutoff)).length < fuel := by
          rw [hfilter1, List.length_drop]
          omega
        rw [ih (live.filter (fun i => decide (i.id ∉
              ((live.filter (shouldArchive cutoff)).take batchSize).map Issue.id)))
            (archive ++ ((live.filter (shouldArchive cutoff)).take batchSize).map
              (toArchiveRecord now))
            (k + 1)
            (total + ((live.filter (shouldArchive cutoff)).take batchSize).length)
            errors hnd1 hfuel1]
        rw [hfilter1, archive_filter_nonmatching cutoff live batchSize hnd]
        rw [List.append_assoc, ← List.map_append, List.take_append_drop]
        have hcnt : total + ((live.filter (shouldArchive cutoff)).take batchSize).length +
            ((live.filter (shouldArchive cutoff)).drop batchSize).length =
            total + (live.filter (shouldArchive cutoff)).length := by
          rw [List.length_take, List.length_drop, Nat.min_eq_left hble]
          omega
        rw [hcnt]

theorem archiveLoop_fault (cutoff now batchSize : Nat) (hbs : 0 < batchSize) :
    ∀ (j fuel : Nat) (live : List Issue) (archive : List ArchiveRecord) (k total : Nat)
      (errors : List String),
      (live.map Issue.id).Nodup →
      batchSize * j < (live.filter (shouldArchive cutoff)).length →
      (live.filter (shouldArchive cutoff)).length < fuel →
      ∃ live1,
        archiveLoop (some (k + j)) cutoff now batchSize fuel k live archive total errors =
          ({ archivedCount := total + batchSize * j,
             errors := errors ++ ["batch insert failed"] },
           live1,
           archive ++ ((live.filter (shouldArchive cutoff)).take (batchSize * j)).map
             (toArchiveRecord now)) ∧
        live1.filter (shouldArchive cutoff)
          = (live.filter (shouldArchive cutoff)).drop (batchSize * j) := by
  intro j
  induction j with
  | zero =>
    intro fuel live archive k total errors hnd hreach hfuel
    cases fuel with
    | zero => omega
    | succ fuel =>
      unfold archiveLoop
      dsimp only
      unfold archiveBatchSelect
      have hMne : live.filter (shouldArchive cutoff) ≠ [] := by
        intro h
        rw [h] at hreach
        simp at hreach
      have hempty : ((live.filter (shouldArchive cutoff)).take batchSize).isEmpty = false :=
        take_isEmpty_false hMne hbs
      simp only [hempty, Bool.false_eq_true, if_false]
      rw [if_pos (show (some (k + 0) : Option Nat) = some k by rw [Nat.add_zero])]
      refine ⟨live, ?_, ?_⟩
      · simp
      · simp
  | succ j ih =>
    intro fuel live archive k total errors hnd hreach hfuel
    cases fuel with
    | zero => omega
    | succ fuel =>
      unfold archiveLoop
      dsimp only
      unfold archiveBatchSelect
      have hMne : live.filter (shouldArchive cutoff) ≠ [] := by
        intro h
        rw [h] at hreach
        simp at hreach
      have hms : batchSize * (j + 1) = batchSize * j + batchSize := by ring
      have hble : batchSize ≤ (live.filter (shouldArchive cutoff)).length := by
        omega
      have hempty : ((live.filter (shouldArchive cutoff)).take batchSize).isEmpty = false :=
        take_isEmpty_false hMne hbs
      simp only [hempty, Bool.false_eq_true, if_false]
      rw [if_neg (show ¬ (some (k + (j + 1)) : Option Nat) = some k from by
        intro h
        have := Option.some.inj h
        omega)]
      unfold archiveCommit
      dsimp only
      have hlen : ¬ ((live.filter (shouldArchive cutoff)).take batchSize).length
          < batchSize := by
        rw [List.length_take, Nat.min_eq_left hble]
        omega
      rw [if_neg hlen]
      have hnd1 : ((live.filter (fun i => decide (i.id ∉
          ((live.filter (shouldArchive cutoff)).take batchSize).map Issue.id))).map
            Issue.id).Nodup := ids_nodup_filter live _ hnd
      have hfilter1 := archive_filter_matching cutoff live batchSize hnd
      have hreach1 : batchSize * j < ((live.filter (fun i => decide (i.id ∉
          ((live.filter (shouldArchive cutoff)).take batchSize).map Issue.id))).filter
            (shouldArchive cutoff)).length := by
        rw [hfilter1, List.length_drop]
        omega
      have hfuel1 : ((live.filter (fun i => decide (i.id ∉
          ((live.filter (shouldArchive cutoff)).take batchSize).map Issue.id))).filter
            (shouldArchive cutoff)).length < fuel := by
        rw [hfilter1, List.length_drop]
        omega
      have harith : k + (j + 1) = (k + 1) + j := by omega
      rw [harith]
      obtain ⟨live2, heq, hM2⟩ := ih fuel
        (live.filter (fun i => decide (i.id ∉
          ((live.filter (shouldArchive cutoff)).take batchSize).map Issue.id)))
        (archive ++ ((live.filter (shouldArchive cutoff)).take batchSize).map
          (toArchiveRecord now))
        (k + 1)
        (total + ((live.filter (shouldArchive cutoff)).take batchSize).length)
        errors hnd1 hreach1 hfuel1
      refine ⟨live2, ?_, ?_⟩
      · rw [heq, hfilter1]
        have hblen : ((live.filter (shouldArchive cutoff)).take batchSize).length
            = batchSize := by
          rw [List.length_take, Nat.min_eq_left hble]
        rw [hblen]
        have hcnt : total + batchSize + batchSize * j = total + batchSize * (j + 1) := by
          omega
        rw [hcnt]
        rw [List.append_assoc, ← List.map_append]
        have htake : (live.filter (shouldArchive cutoff)).take batchSize ++
            ((live.filter (shouldArchive cutoff)).drop batchSize).take (batchSize * j) =
            (live.filter (shouldArchive cutoff)).take (batchSize * (j + 1)) := by
          rw [show batchSize * (j + 1) = batchSize + batchSize * j from by omega]
          rw [List.take_add]
        rw [htake]
      · rw [hM2, hfilter1, List.drop_drop]
        rw [show batchSize + batchSize * j = batchSize * (j + 1) from by omega]

/-- C8: archival archives exactly the issues with terminal status older than
the cutoff: on a run without batch errors the archive gains exactly the
matching rows (each with a non-null archivedAt), the live store keeps
exactly the non-matching rows, and the matching row count drops by exactly
the number of inserted archive rows; each batch commits atomically, and on
the first batch error processing stops while the batches already committed
remain archived and deleted from the live store. -/
theorem C8_archival_exact (cutoff now batchSize : Nat) (live : List Issue)
    (archive : List ArchiveRecord) (hbs : 0 < batchSize)
    (hnd : (live.map Issue.id).Nodup) :
    ((archiveResolvedIssues none cutoff now batchSize live archive).1.archivedCount
        = archMatchCount cutoff live ∧
     (archiveResolvedIssues none cutoff now batchSize live archive).1.errors = [] ∧
     (archiveResolvedIssues none cutoff now batchSize live archive).2.1
        = live.filter (fun i => !(shouldArchive cutoff i)) ∧
     (archiveResolvedIssues none cutoff now batchSize live archive).2.2
        = archive ++ (live.filter (shouldArchive cutoff)).map (toArchiveRecord now) ∧
     (∀ r ∈ (live.filter (shouldArchive cutoff)).map (toArchiveRecord now),
        r.archivedAt = some now) ∧
     archMatchCount cutoff live -
        archMatchCount cutoff
          (archiveResolvedIssues none cutoff now batchSize live archive).2.1
        = (archiveResolvedIssues none cutoff now batchSize live archive).2.2.length
          - archive.length) ∧
    (∀ j, batchSize * j < archMatchCount cutoff live →
      (archiveResolvedIssues (some j) cutoff now batchSize live archive).1.archivedCount
          = batchSize * j ∧
      (archiveResolvedIssues (some j) cutoff now batchSize live archive).1.errors
          = ["batch insert failed"] ∧
      (archiveResolvedIssues (some j) cutoff now batchSize live archive).2.2
          = archive ++ ((live.filter (shouldArchive cutoff)).take (batchSize * j)).map
              (toArchiveRecord now) ∧
      archMatchCount cutoff live -
          archMatchCount cutoff
            (archiveResolvedIssues (some j) cutoff now batchSize live archive).2.1
          = batchSize * j) := by
  have hfuel : (live.filter (shouldArchive cutoff)).length < live.length + 1 := by
    have := List.length_filter_le (shouldArchive cutoff) live
    omega
  constructor
  · have hA := archiveLoop_no_fault cutoff now batchSize hbs (live.length + 1) live archive
      0 0 [] hnd hfuel
    unfold archiveResolvedIssues
    rw [hA]
    dsimp only
    have hdrop : archMatchCount cutoff (live.filter (fun i => !(shouldArchive cutoff i)))
        = 0 := by
      unfold archMatchCount
      rw [List.filter_filter]
      rw [show (live.filter fun a => shouldArchive cutoff a && !shouldArchive cutoff a)
          = [] from ?_]
      · rfl
      · rw [List.filter_eq_nil_iff]
        intro a _
        cases shouldArchive cutoff a <;> decide
    refine ⟨by unfold archMatchCount; omega, rfl, rfl, rfl, ?_, ?_⟩
    · intro r hr
      rw [List.mem_map] at hr
      obtain ⟨i, _, rfl⟩ := hr
      rfl
    · rw [hdrop, List.length_append, List.length_map]
      unfold archMatchCount
      omega
  · intro j hj
    unfold archMatchCount at hj
    obtain ⟨live1, heq, hM1⟩ := archiveLoop_fault cutoff now batchSize hbs j
      (live.length + 1) live archive 0 0 [] hnd hj hfuel
    rw [Nat.zero_add] at heq
    unfold archiveResolvedIssues
    rw [heq]
    dsimp only
    refine ⟨Nat.zero_add _, List.nil_append _, rfl, ?_⟩
    unfold archMatchCount
    rw [hM1, List.length_drop]
    omega

/-- C8 witness: the archival job evaluated on a concrete store with two
archivable rows and one live row, with and without a batch fault. -/
theorem C8_archival_exact_witness :
    (archiveResolvedIssues none 100 200 1 liveArchSample []).1.archivedCount = 2 ∧
    (archiveResolvedIssues none 100 200 1 liveArchSample []).2.1 = [baseIssue] ∧
    (archiveResolvedIssues none 100 200 1 liveArchSample []).2.2
      = [toArchiveRecord 200 issueArchA, toArchiveRecord 200 issueArchB] ∧
    (archiveResolvedIssues (some 1) 100 200 1 liveArchSample []).1.archivedCount = 1 ∧
    (archiveResolvedIssues (some 1) 100 200 1 liveArchSample []).2.2
      = [toArchiveRecord 200 issueArchA] := by
  have h := C8_archival_exact 100 200 1 liveArchSample [] (by decide) (by decide)
  refine ⟨?_, ?_, ?_, ?_, ?_⟩
  · rw [h.1.1]
    decide
  · rw [h.1.2.2.1]
    decide
  · rw [h.1.2.2.2.1]
    decide
  · rw [(h.2 1 (by decide)).1]
  · rw [(h.2 1 (by decide)).2.2.1]
    decide
